import Mathlib

/-
  Verification of the skills-portfolio repository (StudentManager, MathsQuiz).

  Shallow embedding conventions:
  * Python `str` values that the programs manipulate are modelled as `List Char`
    (`PyStr`); constant labels that are only ever returned verbatim (grades,
    rank names, feedback messages) stay Lean `String`s.
  * Python `int` is modelled as `Int` (arbitrary precision in Python as well).
  * Python float percentages are modelled as `ℚ`.  For every comparison the
    programs perform, the double-precision value agrees with the rational one:
    the thresholds are integers, the percentages are integer multiples of
    1/8 (StudentReport: total*100/160) or integers (quiz: score*100/100), and
    the accumulated rounding error of `x / c * 100` is far below the distance
    to the nearest threshold (checked by hand for every reachable boundary
    value, e.g. 112/160*100 rounds back to exactly 70.0).
  * Randomness (random.randint / random.choice) enters the model as explicit
    parameters of the generator functions.
  * GUI side effects (labels, sounds, message boxes) are ignored; the returned
    feedback strings and the mutated logic state are modelled exactly.
-/

namespace PyModel

/-- Python strings, as lists of characters. -/
abbrev PyStr := List Char

/-- The decimal digit characters, as produced by Python's str() on digits. -/
def digChar (d : Nat) : Char :=
  match d with
  | 0 => '0'
  | 1 => '1'
  | 2 => '2'
  | 3 => '3'
  | 4 => '4'
  | 5 => '5'
  | 6 => '6'
  | 7 => '7'
  | 8 => '8'
  | _ => '9'

/-- Numeric value of a list of decimal digit characters (most significant first),
    as computed by Python's int() on a digit string. -/
def digsVal (cs : PyStr) : Nat :=
  cs.foldl (fun a c => 10 * a + (c.toNat - 48)) 0

/-- Fuel-driven core of decimal printing (structural recursion so that the
    kernel can evaluate it). -/
def toDigitsCore (fuel : Nat) (n : Nat) : PyStr :=
  match fuel with
  | 0 => []
  | fuel + 1 =>
    if n < 10 then [digChar n]
    else toDigitsCore fuel (n / 10) ++ [digChar (n % 10)]

/-- Decimal digits of a natural number, most significant first: Python str(n). -/
def natToDigits (n : Nat) : PyStr := toDigitsCore (n + 1) n

/-- Python str() on an int: optional minus sign followed by decimal digits. -/
def intToDigits (i : Int) : PyStr :=
  if i < 0 then '-' :: natToDigits (-i).toNat else natToDigits i.toNat

/-- Python str.strip(): remove leading and trailing whitespace. -/
def trimC (cs : PyStr) : PyStr :=
  ((cs.dropWhile Char.isWhitespace).reverse.dropWhile Char.isWhitespace).reverse

/-- Python int(s) for the ASCII strings this program handles: strips
    whitespace, accepts an optional sign followed by one or more decimal
    digits, raises ValueError (None here) otherwise. -/
def pyInt (cs : PyStr) : Option Int :=
  let t := trimC cs
  if t ≠ [] ∧ t.all Char.isDigit then some ((digsVal t : Nat) : Int)
  else if t.head? = some '-' ∧ t.tail ≠ [] ∧ t.tail.all Char.isDigit then
    some (-((digsVal t.tail : Nat) : Int))
  else if t.head? = some '+' ∧ t.tail ≠ [] ∧ t.tail.all Char.isDigit then
    some ((digsVal t.tail : Nat) : Int)
  else none

/-- Python str.lower() for the ASCII strings this program handles. -/
def toLowerC (cs : PyStr) : PyStr := cs.map Char.toLower

/-- Python `needle in hay` substring test. -/
def containsSub (hay needle : PyStr) : Bool :=
  (List.range (hay.length + 1)).any (fun i => needle.isPrefixOf (hay.drop i))

/-- Python s.split(','): split on every comma, keeping empty pieces. -/
def splitC : PyStr → List PyStr
  | [] => [[]]
  | c :: rest =>
    match splitC rest with
    | [] => [[]]
    | s :: ss => if c = ',' then [] :: s :: ss else (c :: s) :: ss

end PyModel

namespace StudentReport

/-- StudentReport.py: a single student record (class Student).  The four raw
    score fields are Python ints; code and name are stored verbatim. -/
structure Student where
  code : PyModel.PyStr
  name : PyModel.PyStr
  c1 : Int
  c2 : Int
  c3 : Int
  exam : Int
  deriving DecidableEq, Repr

/-- StudentReport.py line 11: TOTAL_MAX_MARKS = 160. -/
def TOTAL_MAX_MARKS : ℚ := 160

/-- Student._recalculate_derived_data: coursework total c1+c2+c3. -/
def coursework_total (s : Student) : Int := s.c1 + s.c2 + s.c3

/-- Student._recalculate_derived_data: overall total = coursework + exam. -/
def total_score (s : Student) : Int := coursework_total s + s.exam

/-- Student._recalculate_derived_data: (total_score / 160) * 100. -/
def overall_percentage (s : Student) : ℚ :=
  ((total_score s : ℚ) / TOTAL_MAX_MARKS) * 100

/-- Student._calculate_grade: the elif-chain on the overall percentage.  Note
    the source checks closed intervals 60..69, 50..59, 40..49, so fractional
    percentages strictly between 69 and 70 (etc.) fall through to the final
    else branch. -/
def calculate_grade (s : Student) : String :=
  if 70 ≤ overall_percentage s then "A"
  else if 60 ≤ overall_percentage s ∧ overall_percentage s ≤ 69 then "B"
  else if 50 ≤ overall_percentage s ∧ overall_percentage s ≤ 59 then "C"
  else if 40 ≤ overall_percentage s ∧ overall_percentage s ≤ 49 then "D"
  else "F"

/-- Student.to_file_format: "code,name,c1,c2,c3,exam". -/
def to_file_format (s : Student) : PyModel.PyStr :=
  s.code ++ ',' :: s.name ++ ',' :: PyModel.intToDigits s.c1 ++
    ',' :: PyModel.intToDigits s.c2 ++ ',' :: PyModel.intToDigits s.c3 ++
    ',' :: PyModel.intToDigits s.exam

/-- DataManager.load_data, body of the per-line loop: strip the line, split on
    commas, accept exactly six fields, convert the four score fields with
    int().  (In the source an unparseable score field raises ValueError and
    aborts the whole load with an error box; that failure path is outside the
    valid-record files the round-trip claim quantifies over, so here such a
    line simply yields no student, like a line with a wrong field count.) -/
def parseLine (line : PyModel.PyStr) : Option Student :=
  match PyModel.splitC (PyModel.trimC line) with
  | [p0, p1, p2, p3, p4, p5] =>
    match PyModel.pyInt p2, PyModel.pyInt p3, PyModel.pyInt p4, PyModel.pyInt p5 with
    | some a, some b, some c, some d => some ⟨p0, p1, a, b, c, d⟩
    | _, _, _, _ => none
  | _ => none

/-- DataManager.load_data: skip the count line, parse every record line. -/
def loadStudents (lines : List PyModel.PyStr) : List Student :=
  (lines.drop 1).filterMap parseLine

/-- DataManager.save_data: the lines written to the file - the student count
    followed by one to_file_format line per student. -/
def save_lines (students : List Student) : List PyModel.PyStr :=
  PyModel.natToDigits students.length :: students.map to_file_format

/-- Side conditions under which a student's file line survives the loader's
    strip/split untouched: no comma inside code or name, and the code does not
    start with whitespace (line.strip() would eat it). -/
def headNotWS (cs : PyModel.PyStr) : Bool :=
  match cs with
  | [] => true
  | c :: _ => !c.isWhitespace

/-- A student whose to_file_format line parses back unchanged: comma-free code
    and name, code not starting with whitespace. -/
def valid_record_student (st : Student) : Prop :=
  ',' ∉ st.code ∧ ',' ∉ st.name ∧ headNotWS st.code = true

/-- DataManager.find_student: strip+lower the term, then keep students whose
    (raw) code equals the lowered term or whose lowered name contains it. -/
def find_student (students : List Student) (search_term : PyModel.PyStr) :
    List Student :=
  let t := PyModel.toLowerC (PyModel.trimC search_term)
  students.filter fun s =>
    decide (s.code = t) || PyModel.containsSub (PyModel.toLowerC s.name) t

/-- DataManager state: the in-memory roster and the stored class_size. -/
structure DataM where
  students : List Student
  class_size : Int
  deriving DecidableEq, Repr

/-- DataManager.save_data: sets class_size to the roster length (this happens
    before the file write, so it sticks even when the write fails), then
    attempts the write; writeOk says whether the write succeeded. -/
def save_data (dm : DataM) (writeOk : Bool) : DataM × Bool :=
  ({ dm with class_size := (dm.students.length : Int) }, writeOk)

/-- StudentApp._handle_submission: append the new student, save; on a failed
    save pop the appended student back off. -/
def handle_submission (dm : DataM) (s : Student) (writeOk : Bool) : DataM :=
  let r := save_data { dm with students := dm.students ++ [s] } writeOk
  if r.2 then r.1 else { r.1 with students := r.1.students.dropLast }

/-- Python list.remove: drop the first matching element. -/
def removeFirst : List Student → Student → List Student
  | [], _ => []
  | a :: rest, x => if a = x then rest else a :: removeFirst rest x

/-- ManageFrame._submit_inline_delete (confirmed path): find the first match,
    remove it from the roster, save - with no rollback when the save fails. -/
def submit_inline_delete (dm : DataM) (search_term : PyModel.PyStr)
    (writeOk : Bool) : DataM :=
  match find_student dm.students search_term with
  | [] => dm
  | st :: _ => (save_data { dm with students := removeFirst dm.students st } writeOk).1

/-- DataManager.load_data tail (success path): class_size = len(students). -/
def load_dm (lines : List PyModel.PyStr) : DataM :=
  { students := loadStudents lines, class_size := ((loadStudents lines).length : Int) }

/-- DataManager.get_summary: (class_size, sum of percentages / class_size);
    note the divisor is the stored class_size, not the roster length. -/
def get_summary (dm : DataM) : Int × ℚ :=
  if dm.students = [] then (0, 0)
  else (dm.class_size, ((dm.students.map overall_percentage).sum / (dm.class_size : ℚ)))

end StudentReport

namespace MathQuiz

/-- quiz.py: the two arithmetic operations random.choice picks from. -/
inductive Op
  | add
  | sub
  deriving DecidableEq, Repr

/-- quiz.py DIFFICULTY_SETTINGS: operand range per difficulty tier. -/
def DIFFICULTY_SETTINGS : List (String × Int × Int) :=
  [("Beginner", 1, 9), ("Intermediate", 10, 99), ("Advanced", 1000, 9999)]

/-- quiz.py MAX_LIVES = 5. -/
def MAX_LIVES : Int := 5

/-- MathQuizLogic mutable state: score, questions_attempted, current_answer,
    attempts_remaining, lives.  All are Python ints. -/
structure QState where
  score : Int
  questions_attempted : Int
  current_answer : Int
  attempts_remaining : Int
  lives : Int
  deriving DecidableEq, Repr

/-- Python str() of an int, as a Lean String (for the feedback messages). -/
def intStr (i : Int) : String := String.mk (PyModel.intToDigits i)

/-- MathQuizLogic.generate_problem with the two random draws and the operation
    choice as explicit parameters.  Returns the displayed operands and
    operator (the question string is f-formatted from exactly these) together
    with the updated state: for subtraction the operands are swapped when
    num1 < num2, the correct answer is stored, attempts_remaining is reset
    to 2. -/
def generate_problem (st : QState) (num1 num2 : Int) (op : Op) :
    (Int × Int × Op) × QState :=
  let p := if op = Op.sub ∧ num1 < num2 then (num2, num1) else (num1, num2)
  let ans := if op = Op.add then p.1 + p.2 else p.1 - p.2
  ((p.1, p.2, op), { st with current_answer := ans, attempts_remaining := 2 })

/-- MathQuizLogic.check_answer: parse the input with int(); on failure return
    "Invalid Input" and change nothing.  On a correct answer award 10 points
    when attempts_remaining is still 2, else 5, and bump questions_attempted.
    On a wrong answer decrement attempts_remaining; when it reaches 0, lose a
    life, bump questions_attempted and report the correct answer.  The Bool is
    the solved flag the GUI uses to advance to the next question. -/
def check_answer (st : QState) (user_input : PyModel.PyStr) :
    String × Bool × QState :=
  match PyModel.pyInt user_input with
  | none => ("Invalid Input", false, st)
  | some user_answer =>
    if user_answer = st.current_answer then
      let points : Int := if st.attempts_remaining = 2 then 10 else 5
      ("Correct! (+" ++ intStr points ++ " points)", true,
        { st with score := st.score + points,
                  questions_attempted := st.questions_attempted + 1 })
    else
      let st1 := { st with attempts_remaining := st.attempts_remaining - 1 }
      if st1.attempts_remaining = 0 then
        ("Wrong! The answer was " ++ intStr st.current_answer ++ ". You lost a life.",
          true,
          { st1 with lives := st1.lives - 1,
                     questions_attempted := st1.questions_attempted + 1 })
      else
        ("Wrong. One more attempt remaining.", false, st1)

/-- MathQuizLogic.calculate_rank: percent of the maximum score (10 points per
    question), then the rank ladder. -/
def calculate_rank (score : Int) (max_questions : Nat) : String :=
  let score_percent : ℚ :=
    if max_questions ≠ 0 then ((score : ℚ) / ((max_questions : ℚ) * 10)) * 100
    else 0
  if 90 ≤ score_percent then "A+ (Outstanding!)"
  else if 80 ≤ score_percent then "A (Excellent!)"
  else if 70 ≤ score_percent then "B (Very Good)"
  else if 60 ≤ score_percent then "C (Good)"
  else "F (Try Again)"

end MathQuiz

namespace MainQuiz

/-- main.py MAX_QUESTIONS = 10. -/
def MAX_QUESTIONS : Nat := 10

/-- main.py MAX_LIVES = 5. -/
def MAX_LIVES : Int := 5

/-- main.py FIRST_ATTEMPT_POINTS = 10. -/
def FIRST_ATTEMPT_POINTS : Int := 10

/-- main.py SECOND_ATTEMPT_POINTS = 5. -/
def SECOND_ATTEMPT_POINTS : Int := 5

/-- main.py quiz_data entry: operands, operator, stored answer and the
    per-question attempt counter (starts at 1). -/
structure MProblem where
  n1 : Int
  n2 : Int
  op : MathQuiz.Op
  answer : Int
  attempts : Int
  deriving DecidableEq, Repr

/-- DifficultySelectPage.start_quiz, loop body: one generated problem with the
    random draws explicit.  ans = n1 + n2 or n1 - n2; no operand reordering
    for subtraction. -/
def mkProblem (n1 n2 : Int) (op : MathQuiz.Op) : MProblem :=
  { n1 := n1, n2 := n2, op := op,
    answer := if op = MathQuiz.Op.add then n1 + n2 else n1 - n2,
    attempts := 1 }

/-- MathsQuizApp game state as QuizPage manipulates it; finished models
    having switched to the ResultsPage. -/
structure AppState where
  score : Int
  lives : Int
  question_index : Nat
  quiz_data : List MProblem
  finished : Bool
  deriving DecidableEq, Repr

/-- QuizPage.display_problem: before showing a question, end the game when
    the index has reached MAX_QUESTIONS or no lives remain. -/
def display_problem (s : AppState) : AppState :=
  if MAX_QUESTIONS ≤ s.question_index ∨ s.lives ≤ 0 then
    { s with finished := true }
  else s

/-- DifficultySelectPage.start_quiz tail: reset score/lives/index, install the
    generated quiz_data, switch to QuizPage (whose init calls
    display_problem). -/
def start_quiz (data : List MProblem) : AppState :=
  display_problem
    { score := 0, lives := MAX_LIVES, question_index := 0,
      quiz_data := data, finished := false }

/-- QuizPage.check_answer.  Once finished the page is destroyed, so a stray
    submission is a no-op.  Unparseable input shows an error box and changes
    nothing.  A correct answer awards 10 or 5 points by the stored attempt
    counter and advances; a wrong answer bumps the counter, and on the second
    miss costs a life and advances; display_problem then checks for game
    over. -/
def check_answer (s : AppState) (input : PyModel.PyStr) : AppState :=
  if s.finished then s
  else
    match PyModel.pyInt input with
    | none => s
    | some user_ans =>
      match s.quiz_data[s.question_index]? with
      | none => s
      | some q =>
        if user_ans = q.answer then
          let points :=
            if q.attempts = 1 then FIRST_ATTEMPT_POINTS else SECOND_ATTEMPT_POINTS
          display_problem
            { s with score := s.score + points,
                     question_index := s.question_index + 1 }
        else
          let q2 := { q with attempts := q.attempts + 1 }
          let s1 := { s with quiz_data := s.quiz_data.set s.question_index q2 }
          if 2 < q2.attempts then
            display_problem
              { s1 with lives := s1.lives - 1,
                        question_index := s1.question_index + 1 }
          else s1

/-- QuizPage.confirm_quit, user pressed yes: go to the results page. -/
def confirm_quit (s : AppState) : AppState :=
  if s.finished then s else { s with finished := true }

/-- The player-visible events a quiz run consists of. -/
inductive MEvent
  | submit (input : PyModel.PyStr)
  | quitConfirmed
  deriving DecidableEq, Repr

/-- One interaction step of the main.py quiz. -/
def step (s : AppState) (e : MEvent) : AppState :=
  match e with
  | MEvent.submit i => check_answer s i
  | MEvent.quitConfirmed => confirm_quit s

/-- A whole quiz run: start with the generated data, process the events. -/
def run (data : List MProblem) (events : List MEvent) : AppState :=
  events.foldl step (start_quiz data)

/-- Invariant of the main.py quiz loop: a live (unfinished) game always has a
    life left and an in-range question index. -/
def InvM (s : AppState) : Prop :=
  s.finished = true ∨ (0 < s.lives ∧ s.question_index < MAX_QUESTIONS)

/-- ResultsPage.__init__ grading chain: thresholds on the raw score, with a
    final else of C (no F rank in this variant). -/
def results_rank (score : Int) : String :=
  if 90 ≤ score then "A+ (Excellent!)"
  else if 80 ≤ score then "A (Great Job!)"
  else if 70 ≤ score then "B (Good Work!)"
  else "C (Keep Practicing!)"

end MainQuiz

example : PyModel.pyInt ("12".toList) = some 12 := by decide
example : PyModel.pyInt (" -7 ".toList) = some (-7) := by decide
example : PyModel.pyInt ("Timeout".toList) = none := by decide
example : PyModel.natToDigits 1234 = "1234".toList := by decide
example : PyModel.splitC ("a,,b".toList) = ["a".toList, [], "b".toList] := by decide
example : PyModel.containsSub ("hello".toList) ("ell".toList) = true := by decide
example : PyModel.containsSub ("hello".toList) ("elo".toList) = false := by decide
example : PyModel.trimC ("  hi ".toList) = "hi".toList := by decide

/-
  Library of facts about the Python string model.
-/

namespace PyModel

theorem digChar_toNat (d : Nat) (h : d < 10) : (digChar d).toNat = 48 + d := by
  interval_cases d <;> rfl

theorem digChar_isDigit (d : Nat) (h : d < 10) : (digChar d).isDigit = true := by
  interval_cases d <;> rfl

theorem digChar_not_ws (d : Nat) (h : d < 10) : (digChar d).isWhitespace = false := by
  interval_cases d <;> rfl

theorem digChar_ne_comma (d : Nat) (h : d < 10) : digChar d ≠ ',' := by
  interval_cases d <;> decide

theorem toDigitsCore_ne_nil : ∀ (fuel n : Nat), n < fuel → toDigitsCore fuel n ≠ [] := by
  intro fuel
  induction fuel with
  | zero => intro n h; omega
  | succ f ih =>
    intro n _
    simp only [toDigitsCore]
    by_cases hn : n < 10
    · rw [if_pos hn]; simp
    · rw [if_neg hn]; simp

theorem toDigitsCore_mem : ∀ (fuel n : Nat), n < fuel →
    ∀ c ∈ toDigitsCore fuel n, ∃ d, d < 10 ∧ c = digChar d := by
  intro fuel
  induction fuel with
  | zero => intro n h; omega
  | succ f ih =>
    intro n hn c hc
    simp only [toDigitsCore] at hc
    by_cases h10 : n < 10
    · rw [if_pos h10] at hc
      simp only [List.mem_singleton] at hc
      exact ⟨n, h10, hc⟩
    · rw [if_neg h10] at hc
      rcases List.mem_append.mp hc with h | h
      · exact ih (n / 10) (by omega) c h
      · simp only [List.mem_singleton] at h
        exact ⟨n % 10, by omega, h⟩

theorem digsVal_toDigitsCore : ∀ (fuel n : Nat), n < fuel →
    digsVal (toDigitsCore fuel n) = n := by
  intro fuel
  induction fuel with
  | zero => intro n h; omega
  | succ f ih =>
    intro n hn
    simp only [toDigitsCore]
    by_cases h10 : n < 10
    · rw [if_pos h10]
      simp only [digsVal, List.foldl_cons, List.foldl_nil]
      rw [digChar_toNat n h10]
      omega
    · rw [if_neg h10]
      simp only [digsVal, List.foldl_append, List.foldl_cons, List.foldl_nil]
      have hv := ih (n / 10) (by omega)
      simp only [digsVal] at hv
      rw [hv, digChar_toNat (n % 10) (by omega)]
      omega

theorem natToDigits_ne_nil (n : Nat) : natToDigits n ≠ [] :=
  toDigitsCore_ne_nil (n + 1) n (Nat.lt_succ_self n)

theorem natToDigits_mem (n : Nat) : ∀ c ∈ natToDigits n, ∃ d, d < 10 ∧ c = digChar d :=
  toDigitsCore_mem (n + 1) n (Nat.lt_succ_self n)

theorem digsVal_natToDigits (n : Nat) : digsVal (natToDigits n) = n :=
  digsVal_toDigitsCore (n + 1) n (Nat.lt_succ_self n)

theorem natToDigits_all_digit (n : Nat) : (natToDigits n).all Char.isDigit = true := by
  rw [List.all_eq_true]
  intro c hc
  obtain ⟨d, hd, rfl⟩ := natToDigits_mem n c hc
  exact digChar_isDigit d hd

theorem natToDigits_not_ws (n : Nat) : ∀ c ∈ natToDigits n, c.isWhitespace = false := by
  intro c hc
  obtain ⟨d, hd, rfl⟩ := natToDigits_mem n c hc
  exact digChar_not_ws d hd

theorem natToDigits_not_comma (n : Nat) : ',' ∉ natToDigits n := by
  intro hc
  obtain ⟨d, hd, h⟩ := natToDigits_mem n ',' hc
  exact digChar_ne_comma d hd h.symm

theorem intToDigits_ne_nil (i : Int) : intToDigits i ≠ [] := by
  unfold intToDigits
  split_ifs
  · simp
  · exact natToDigits_ne_nil _

theorem intToDigits_not_ws (i : Int) : ∀ c ∈ intToDigits i, c.isWhitespace = false := by
  intro c hc
  unfold intToDigits at hc
  split_ifs at hc
  · rcases List.mem_cons.mp hc with h | h
    · subst h; rfl
    · exact natToDigits_not_ws _ c h
  · exact natToDigits_not_ws _ c hc

theorem intToDigits_not_comma (i : Int) : ',' ∉ intToDigits i := by
  intro hc
  unfold intToDigits at hc
  split_ifs at hc
  · rcases List.mem_cons.mp hc with h | h
    · exact absurd h (by decide)
    · exact natToDigits_not_comma _ h
  · exact natToDigits_not_comma _ hc

theorem dropWhile_eq_self_of_head (p : Char → Bool) (l : PyStr)
    (h : ∀ c, l.head? = some c → p c = false) : l.dropWhile p = l := by
  cases l with
  | nil => rfl
  | cons a t =>
    rw [List.dropWhile_cons, h a rfl]
    simp

theorem trimC_eq_self (l : PyStr)
    (h1 : ∀ c, l.head? = some c → c.isWhitespace = false)
    (h2 : ∀ c, l.getLast? = some c → c.isWhitespace = false) : trimC l = l := by
  unfold trimC
  rw [dropWhile_eq_self_of_head _ _ h1]
  rw [dropWhile_eq_self_of_head _ _
    (fun c hc => h2 c (by rwa [List.head?_reverse] at hc))]
  exact List.reverse_reverse l

theorem trimC_eq_self_of_all (l : PyStr)
    (h : ∀ c ∈ l, c.isWhitespace = false) : trimC l = l :=
  trimC_eq_self l
    (fun c hc => h c (List.mem_of_mem_head? (by rw [hc]; exact rfl)))
    (fun c hc => h c (List.mem_of_mem_getLast? (by rw [hc]; exact rfl)))

theorem pyInt_natToDigits (n : Nat) : pyInt (natToDigits n) = some (n : Int) := by
  unfold pyInt
  rw [trimC_eq_self_of_all _ (natToDigits_not_ws n)]
  rw [if_pos ⟨natToDigits_ne_nil n, natToDigits_all_digit n⟩]
  rw [digsVal_natToDigits n]

theorem pyInt_intToDigits (i : Int) : pyInt (intToDigits i) = some i := by
  unfold intToDigits
  split_ifs with hneg
  · unfold pyInt
    have hws : ∀ c ∈ '-' :: natToDigits (-i).toNat, c.isWhitespace = false := by
      intro c hc
      rcases List.mem_cons.mp hc with h | h
      · subst h; rfl
      · exact natToDigits_not_ws _ c h
    rw [trimC_eq_self_of_all _ hws]
    rw [if_neg (by
      rintro ⟨-, hall⟩
      rw [List.all_cons] at hall
      simp at hall)]
    rw [if_pos ⟨rfl, natToDigits_ne_nil _, natToDigits_all_digit _⟩]
    simp only [List.tail_cons, digsVal_natToDigits]
    congr 1
    omega
  · rw [pyInt_natToDigits]
    congr 1
    omega

theorem splitC_ne_nil (cs : PyStr) : splitC cs ≠ [] := by
  cases cs with
  | nil => simp [splitC]
  | cons c rest =>
    simp only [splitC]
    split
    · simp
    · split_ifs <;> simp

theorem splitC_no_comma (cs : PyStr) (h : ',' ∉ cs) : splitC cs = [cs] := by
  induction cs with
  | nil => rfl
  | cons c rest ih =>
    have hc : ¬ (c = ',') := fun e => h (e ▸ List.mem_cons_self c rest)
    have hr : ',' ∉ rest := fun m => h (List.mem_cons_of_mem c m)
    simp only [splitC, ih hr]
    rw [if_neg hc]

theorem splitC_append (xs ys : PyStr) (h : ',' ∉ xs) :
    splitC (xs ++ ',' :: ys) = xs :: splitC ys := by
  induction xs with
  | nil =>
    obtain ⟨s, ss, hss⟩ : ∃ s ss, splitC ys = s :: ss := by
      cases hy : splitC ys with
      | nil => exact absurd hy (splitC_ne_nil ys)
      | cons s ss => exact ⟨s, ss, rfl⟩
    simp only [List.nil_append, splitC, hss]
    simp
  | cons x xt ih =>
    have hx : ¬ (x = ',') := fun e => h (e ▸ List.mem_cons_self x xt)
    have hxt : ',' ∉ xt := fun m => h (List.mem_cons_of_mem x m)
    simp only [List.cons_append]
    simp only [splitC, ih hxt]
    rw [if_neg hx]

end PyModel

/-
  Facts about the StudentReport embedding.
-/

namespace StudentReport

theorem to_file_format_getLast?_mem (st : Student) :
    ∀ c, (to_file_format st).getLast? = some c → c ∈ PyModel.intToDigits st.exam := by
  intro c hc
  unfold to_file_format at hc
  rw [List.getLast?_append_of_ne_nil _ (by simp)] at hc
  rw [← List.singleton_append] at hc
  rw [List.getLast?_append_of_ne_nil _ (PyModel.intToDigits_ne_nil _)] at hc
  exact List.mem_of_mem_getLast? (hc ▸ rfl)

theorem to_file_format_trim (st : Student) (hh : headNotWS st.code = true) :
    PyModel.trimC (to_file_format st) = to_file_format st := by
  apply PyModel.trimC_eq_self
  · intro c hcc
    unfold to_file_format at hcc
    cases hcode : st.code with
    | nil =>
      rw [hcode] at hcc
      simp only [List.nil_append, List.cons_append, List.head?_cons] at hcc
      injection hcc with h
      subst h
      rfl
    | cons a t =>
      rw [hcode] at hh
      simp only [headNotWS, Bool.not_eq_true'] at hh
      rw [hcode] at hcc
      simp only [List.cons_append, List.head?_cons] at hcc
      injection hcc with h
      subst h
      exact hh
  · intro c hcc
    exact PyModel.intToDigits_not_ws _ c (to_file_format_getLast?_mem st c hcc)

theorem splitC_to_file_format (st : Student)
    (hc : ',' ∉ st.code) (hn : ',' ∉ st.name) :
    PyModel.splitC (to_file_format st) =
      [st.code, st.name, PyModel.intToDigits st.c1, PyModel.intToDigits st.c2,
        PyModel.intToDigits st.c3, PyModel.intToDigits st.exam] := by
  unfold to_file_format
  simp only [List.append_assoc, List.cons_append]
  rw [PyModel.splitC_append _ _ hc]
  rw [PyModel.splitC_append _ _ hn]
  rw [PyModel.splitC_append _ _ (PyModel.intToDigits_not_comma _)]
  rw [PyModel.splitC_append _ _ (PyModel.intToDigits_not_comma _)]
  rw [PyModel.splitC_append _ _ (PyModel.intToDigits_not_comma _)]
  rw [PyModel.splitC_no_comma _ (PyModel.intToDigits_not_comma _)]

theorem parseLine_to_file_format (st : Student) (hv : valid_record_student st) :
    parseLine (to_file_format st) = some st := by
  obtain ⟨hc, hn, hh⟩ := hv
  unfold parseLine
  rw [to_file_format_trim st hh, splitC_to_file_format st hc hn]
  simp only [PyModel.pyInt_intToDigits]

theorem map_format_filterMap (ls : List PyModel.PyStr)
    (h : ∀ l ∈ ls, ∃ st, valid_record_student st ∧ l = to_file_format st) :
    (ls.filterMap parseLine).map to_file_format = ls := by
  induction ls with
  | nil => rfl
  | cons l rest ih =>
    obtain ⟨st, hv, hl⟩ := h l (List.mem_cons_self l rest)
    subst hl
    rw [List.filterMap_cons, parseLine_to_file_format st hv]
    simp only [List.map_cons]
    rw [ih (fun l hl => h l (List.mem_cons_of_mem _ hl))]

theorem mem_find_student (sts : List Student) (term : PyModel.PyStr) (s : Student) :
    s ∈ find_student sts term ↔
      s ∈ sts ∧ (s.code = PyModel.toLowerC (PyModel.trimC term) ∨
        PyModel.containsSub (PyModel.toLowerC s.name)
          (PyModel.toLowerC (PyModel.trimC term)) = true) := by
  unfold find_student
  simp only [List.mem_filter, Bool.or_eq_true, decide_eq_true_eq]

theorem removeFirst_length (l : List Student) (x : Student) (h : x ∈ l) :
    (removeFirst l x).length + 1 = l.length := by
  induction l with
  | nil => cases h
  | cons a rest ih =>
    unfold removeFirst
    by_cases he : a = x
    · rw [if_pos he]; rfl
    · rw [if_neg he]
      have hx : x ∈ rest := by
        rcases List.mem_cons.mp h with h1 | h1
        · exact absurd h1.symm he
        · exact h1
      simp only [List.length_cons]
      rw [← ih hx]

end StudentReport

/-
  Claims about quiz.py (MathQuizLogic).
-/

/-- C3: check_answer implements the two-attempt scoring rule: +10 on a
    first-attempt correct answer, +5 on a second-attempt correct answer (in
    both cases questions_attempted increments and the problem is reported
    solved); a first wrong attempt only consumes the attempt; the second
    wrong attempt costs exactly one life, increments questions_attempted,
    reports the correct answer in the message and advances (solved = true);
    and two consecutive wrong parses from a fresh problem cost exactly one
    life. -/
theorem c3_check_answer_scoring (st : MathQuiz.QState) (input : PyModel.PyStr)
    (v : Int) (hp : PyModel.pyInt input = some v) :
    (v = st.current_answer → st.attempts_remaining = 2 →
      MathQuiz.check_answer st input =
        ("Correct! (+" ++ MathQuiz.intStr 10 ++ " points)", true,
          { st with score := st.score + 10,
                    questions_attempted := st.questions_attempted + 1 })) ∧
    (v = st.current_answer → st.attempts_remaining = 1 →
      MathQuiz.check_answer st input =
        ("Correct! (+" ++ MathQuiz.intStr 5 ++ " points)", true,
          { st with score := st.score + 5,
                    questions_attempted := st.questions_attempted + 1 })) ∧
    (v ≠ st.current_answer → st.attempts_remaining = 2 →
      MathQuiz.check_answer st input =
        ("Wrong. One more attempt remaining.", false,
          { st with attempts_remaining := 1 })) ∧
    (v ≠ st.current_answer → st.attempts_remaining = 1 →
      MathQuiz.check_answer st input =
        ("Wrong! The answer was " ++ MathQuiz.intStr st.current_answer ++
            ". You lost a life.", true,
          { st with attempts_remaining := 0, lives := st.lives - 1,
                    questions_attempted := st.questions_attempted + 1 })) ∧
    (∀ (i2 : PyModel.PyStr) (v2 : Int), PyModel.pyInt i2 = some v2 →
      v ≠ st.current_answer → v2 ≠ st.current_answer → st.attempts_remaining = 2 →
      ((MathQuiz.check_answer (MathQuiz.check_answer st input).2.2 i2).2.2.lives =
          st.lives - 1 ∧
        (MathQuiz.check_answer (MathQuiz.check_answer st input).2.2 i2).2.2.questions_attempted =
          st.questions_attempted + 1 ∧
        (MathQuiz.check_answer (MathQuiz.check_answer st input).2.2 i2).2.1 = true)) := by
  refine ⟨?_, ?_, ?_, ?_, ?_⟩
  · intro hv ha
    simp only [MathQuiz.check_answer, hp, if_pos hv, ha]
    simp
  · intro hv ha
    simp only [MathQuiz.check_answer, hp, if_pos hv, ha]
    simp
  · intro hv ha
    simp only [MathQuiz.check_answer, hp, if_neg hv, ha]
    simp
  · intro hv ha
    simp only [MathQuiz.check_answer, hp, if_neg hv, ha]
    simp
  · intro i2 v2 hp2 hv hv2 ha
    simp only [MathQuiz.check_answer, hp, if_neg hv, ha]
    simp [MathQuiz.check_answer, hp2, hv2]

/-- C3 witness: a first-attempt correct answer on the concrete problem 3 + 4
    awards exactly 10 points. -/
theorem c3_check_answer_scoring_w :
    MathQuiz.check_answer ⟨0, 0, 7, 2, 5⟩ ("7".toList) =
      ("Correct! (+" ++ MathQuiz.intStr 10 ++ " points)", true,
        ⟨0 + 10, 0 + 1, 7, 2, 5⟩) :=
  (c3_check_answer_scoring ⟨0, 0, 7, 2, 5⟩ ("7".toList) 7 (by decide)).1 rfl rfl

/-- C5: an input string that fails int() parsing makes check_answer return the
    invalid-input outcome and leave the whole state - score, lives,
    attempts_remaining, questions_attempted - unchanged. -/
theorem c5_invalid_input_no_change (st : MathQuiz.QState) (input : PyModel.PyStr)
    (h : PyModel.pyInt input = none) :
    MathQuiz.check_answer st input = ("Invalid Input", false, st) := by
  unfold MathQuiz.check_answer
  rw [h]

/-- C5 witness: the timer-expiry scenario - "Timeout" fails parsing, and with
    attempts_remaining forced to 1 the state (lives included) is unchanged. -/
theorem c5_invalid_input_no_change_w :
    PyModel.pyInt ("Timeout".toList) = none ∧
    MathQuiz.check_answer ⟨0, 0, 7, 1, 5⟩ ("Timeout".toList) =
      ("Invalid Input", false, ⟨0, 0, 7, 1, 5⟩) :=
  ⟨by decide, c5_invalid_input_no_change ⟨0, 0, 7, 1, 5⟩ ("Timeout".toList) (by decide)⟩

/-- C7: calculate_rank computes percent = score / (max_questions * 10) * 100
    and maps it by thresholds 90/80/70/60, with every percent below 60
    ranked F. -/
theorem c7_calculate_rank_thresholds (score : Int) (maxq : Nat) (h : maxq ≠ 0) :
    (90 ≤ ((score : ℚ) / ((maxq : ℚ) * 10)) * 100 →
      MathQuiz.calculate_rank score maxq = "A+ (Outstanding!)") ∧
    (80 ≤ ((score : ℚ) / ((maxq : ℚ) * 10)) * 100 ∧
        ((score : ℚ) / ((maxq : ℚ) * 10)) * 100 < 90 →
      MathQuiz.calculate_rank score maxq = "A (Excellent!)") ∧
    (70 ≤ ((score : ℚ) / ((maxq : ℚ) * 10)) * 100 ∧
        ((score : ℚ) / ((maxq : ℚ) * 10)) * 100 < 80 →
      MathQuiz.calculate_rank score maxq = "B (Very Good)") ∧
    (60 ≤ ((score : ℚ) / ((maxq : ℚ) * 10)) * 100 ∧
        ((score : ℚ) / ((maxq : ℚ) * 10)) * 100 < 70 →
      MathQuiz.calculate_rank score maxq = "C (Good)") ∧
    (((score : ℚ) / ((maxq : ℚ) * 10)) * 100 < 60 →
      MathQuiz.calculate_rank score maxq = "F (Try Again)") := by
  refine ⟨?_, ?_, ?_, ?_, ?_⟩
  · intro h1
    simp only [MathQuiz.calculate_rank, if_pos h]
    rw [if_pos h1]
  · rintro ⟨h1, h2⟩
    simp only [MathQuiz.calculate_rank, if_pos h]
    rw [if_neg (by intro g; linarith), if_pos h1]
  · rintro ⟨h1, h2⟩
    simp only [MathQuiz.calculate_rank, if_pos h]
    rw [if_neg (by intro g; linarith), if_neg (by intro g; linarith), if_pos h1]
  · rintro ⟨h1, h2⟩
    simp only [MathQuiz.calculate_rank, if_pos h]
    rw [if_neg (by intro g; linarith), if_neg (by intro g; linarith),
        if_neg (by intro g; linarith), if_pos h1]
  · intro h1
    simp only [MathQuiz.calculate_rank, if_pos h]
    rw [if_neg (by intro g; linarith), if_neg (by intro g; linarith),
        if_neg (by intro g; linarith), if_neg (by intro g; linarith)]

/-- C7 witness: score 50 of a 10-question quiz is 50 percent, ranked F. -/
theorem c7_calculate_rank_thresholds_w :
    MathQuiz.calculate_rank 50 10 = "F (Try Again)" :=
  (c7_calculate_rank_thresholds 50 10 (by decide)).2.2.2.2 (by norm_num)

/-- C2 (amended): in quiz.py's per-question generator the stored answer
    exactly equals first-operand plus/minus second-operand as displayed, and
    for subtraction the operands are swapped so the first is the larger and
    the answer non-negative; attempts are reset to 2.  In main.py's
    generate-all-ten variant the stored answer still equals
    operand1 plus/minus operand2 exactly, but there is no subtraction
    normalization. -/
theorem c2_problem_invariants (st : MathQuiz.QState) (num1 num2 : Int)
    (op : MathQuiz.Op) :
    (op = MathQuiz.Op.add →
      (MathQuiz.generate_problem st num1 num2 op).1 = (num1, num2, MathQuiz.Op.add) ∧
      (MathQuiz.generate_problem st num1 num2 op).2.current_answer = num1 + num2) ∧
    (op = MathQuiz.Op.sub →
      (MathQuiz.generate_problem st num1 num2 op).2.current_answer =
        (MathQuiz.generate_problem st num1 num2 op).1.1 -
          (MathQuiz.generate_problem st num1 num2 op).1.2.1 ∧
      (MathQuiz.generate_problem st num1 num2 op).1.2.1 ≤
        (MathQuiz.generate_problem st num1 num2 op).1.1 ∧
      0 ≤ (MathQuiz.generate_problem st num1 num2 op).2.current_answer) ∧
    (MathQuiz.generate_problem st num1 num2 op).2.attempts_remaining = 2 ∧
    (∀ (m1 m2 : Int) (mop : MathQuiz.Op),
      (MainQuiz.mkProblem m1 m2 mop).answer =
        if mop = MathQuiz.Op.add then m1 + m2 else m1 - m2) := by
  refine ⟨?_, ?_, rfl, fun m1 m2 mop => rfl⟩
  · rintro rfl
    refine ⟨by simp [MathQuiz.generate_problem], by simp [MathQuiz.generate_problem]⟩
  · rintro rfl
    by_cases hlt : num1 < num2
    · refine ⟨by simp [MathQuiz.generate_problem, hlt], ?_, ?_⟩
      · simp [MathQuiz.generate_problem, hlt]
        omega
      · simp [MathQuiz.generate_problem, hlt]
        omega
    · refine ⟨by simp [MathQuiz.generate_problem, hlt], ?_, ?_⟩
      · simp [MathQuiz.generate_problem, hlt]
        omega
      · simp [MathQuiz.generate_problem, hlt]
        omega

/-- C2 counterexample: in the main.py variant, with both operands drawn from
    the Beginner range 1..9, the problem 1 - 9 stores answer -8: the operands
    are not reordered and the stored answer is negative, so the claim fails
    for the generate-all-ten-up-front variant. -/
theorem c2_negative_answer_cex :
    (MainQuiz.mkProblem 1 9 MathQuiz.Op.sub).answer = -8 ∧
    (MainQuiz.mkProblem 1 9 MathQuiz.Op.sub).answer < 0 ∧
    (MainQuiz.mkProblem 1 9 MathQuiz.Op.sub).n1 <
      (MainQuiz.mkProblem 1 9 MathQuiz.Op.sub).n2 := by
  decide

/-- C2 witness: the quiz.py generator on draws 3 and 9 with subtraction swaps
    the operands and stores the non-negative answer 6. -/
theorem c2_problem_invariants_w :
    (MathQuiz.generate_problem ⟨0, 0, 0, 2, 5⟩ 3 9 MathQuiz.Op.sub).2.current_answer = 6 ∧
    0 ≤ (MathQuiz.generate_problem ⟨0, 0, 0, 2, 5⟩ 3 9 MathQuiz.Op.sub).2.current_answer := by
  have h := (c2_problem_invariants ⟨0, 0, 0, 2, 5⟩ 3 9 MathQuiz.Op.sub).2.1 rfl
  exact ⟨by decide, h.2.2⟩

/-
  Claims about main.py (MathsQuizApp quiz loop).
-/

namespace MainQuiz

theorem display_problem_lives (s : AppState) :
    (display_problem s).lives = s.lives := by
  unfold display_problem
  split_ifs <;> rfl

theorem display_problem_index (s : AppState) :
    (display_problem s).question_index = s.question_index := by
  unfold display_problem
  split_ifs <;> rfl

theorem display_problem_finished (s : AppState)
    (h : (display_problem s).finished = true) :
    s.finished = true ∨ MAX_QUESTIONS ≤ s.question_index ∨ s.lives ≤ 0 := by
  unfold display_problem at h
  split_ifs at h with hc
  · rcases hc with hc | hc
    · exact Or.inr (Or.inl hc)
    · exact Or.inr (Or.inr hc)
  · exact Or.inl h

theorem display_problem_inv (s : AppState) : InvM (display_problem s) := by
  unfold InvM display_problem
  split_ifs with hc
  · exact Or.inl rfl
  · push_neg at hc
    exact Or.inr ⟨by omega, by omega⟩

theorem check_answer_finished (s : AppState) (i : PyModel.PyStr)
    (hf : s.finished = true) : check_answer s i = s := by
  simp [check_answer, hf]

theorem check_answer_none (s : AppState) (i : PyModel.PyStr)
    (hf : s.finished = false) (hp : PyModel.pyInt i = none) :
    check_answer s i = s := by
  simp [check_answer, hf, hp]

theorem check_answer_oob (s : AppState) (i : PyModel.PyStr) (v : Int)
    (hf : s.finished = false) (hp : PyModel.pyInt i = some v)
    (hq : s.quiz_data[s.question_index]? = none) :
    check_answer s i = s := by
  simp [check_answer, hf, hp, hq]

theorem check_answer_correct (s : AppState) (i : PyModel.PyStr) (v : Int)
    (q : MProblem) (hf : s.finished = false) (hp : PyModel.pyInt i = some v)
    (hq : s.quiz_data[s.question_index]? = some q) (hv : v = q.answer) :
    check_answer s i = display_problem
      { s with
        score := s.score +
          (if q.attempts = 1 then FIRST_ATTEMPT_POINTS else SECOND_ATTEMPT_POINTS),
        question_index := s.question_index + 1 } := by
  simp [check_answer, hf, hp, hq, hv]

theorem check_answer_wrong_keep (s : AppState) (i : PyModel.PyStr) (v : Int)
    (q : MProblem) (hf : s.finished = false) (hp : PyModel.pyInt i = some v)
    (hq : s.quiz_data[s.question_index]? = some q) (hv : ¬ (v = q.answer))
    (ha : ¬ (2 < q.attempts + 1)) :
    check_answer s i =
      { s with quiz_data :=
          s.quiz_data.set s.question_index { q with attempts := q.attempts + 1 } } := by
  simp [check_answer, hf, hp, hq, hv, ha]

theorem check_answer_wrong_final (s : AppState) (i : PyModel.PyStr) (v : Int)
    (q : MProblem) (hf : s.finished = false) (hp : PyModel.pyInt i = some v)
    (hq : s.quiz_data[s.question_index]? = some q) (hv : ¬ (v = q.answer))
    (ha : 2 < q.attempts + 1) :
    check_answer s i = display_problem
      { s with
        lives := s.lives - 1,
        question_index := s.question_index + 1,
        quiz_data :=
          s.quiz_data.set s.question_index { q with attempts := q.attempts + 1 } } := by
  simp [check_answer, hf, hp, hq, hv, ha]

theorem finished_false_of_not (s : AppState) (hf : ¬ (s.finished = true)) :
    s.finished = false := by
  cases hx : s.finished
  · rfl
  · exact absurd hx hf

theorem check_answer_inv (s : AppState) (i : PyModel.PyStr) (h : InvM s) :
    InvM (check_answer s i) := by
  by_cases hf : s.finished = true
  · rw [check_answer_finished s i hf]; exact h
  · have hf2 := finished_false_of_not s hf
    cases hp : PyModel.pyInt i with
    | none => rw [check_answer_none s i hf2 hp]; exact h
    | some v =>
      cases hq : s.quiz_data[s.question_index]? with
      | none => rw [check_answer_oob s i v hf2 hp hq]; exact h
      | some q =>
        by_cases hv : v = q.answer
        · rw [check_answer_correct s i v q hf2 hp hq hv]
          exact display_problem_inv _
        · by_cases ha : 2 < q.attempts + 1
          · rw [check_answer_wrong_final s i v q hf2 hp hq hv ha]
            exact display_problem_inv _
          · rw [check_answer_wrong_keep s i v q hf2 hp hq hv ha]
            exact h

theorem check_answer_finished_origin (s : AppState) (i : PyModel.PyStr)
    (hf : s.finished = false) (h : (check_answer s i).finished = true) :
    (check_answer s i).lives ≤ 0 ∨
      MAX_QUESTIONS ≤ (check_answer s i).question_index := by
  cases hp : PyModel.pyInt i with
  | none =>
    rw [check_answer_none s i hf hp] at h
    rw [hf] at h
    cases h
  | some v =>
    cases hq : s.quiz_data[s.question_index]? with
    | none =>
      rw [check_answer_oob s i v hf hp hq] at h
      rw [hf] at h
      cases h
    | some q =>
      by_cases hv : v = q.answer
      · rw [check_answer_correct s i v q hf hp hq hv] at h ⊢
        rcases display_problem_finished _ h with h1 | h1 | h1
        · exfalso; simp [hf] at h1
        · rw [display_problem_index]
          exact Or.inr h1
        · rw [display_problem_lives]
          exact Or.inl h1
      · by_cases ha : 2 < q.attempts + 1
        · rw [check_answer_wrong_final s i v q hf hp hq hv ha] at h ⊢
          rcases display_problem_finished _ h with h1 | h1 | h1
          · exfalso; simp [hf] at h1
          · rw [display_problem_index]
            exact Or.inr h1
          · rw [display_problem_lives]
            exact Or.inl h1
        · rw [check_answer_wrong_keep s i v q hf hp hq hv ha] at h
          exfalso; simp [hf] at h

theorem confirm_quit_finished (s : AppState) :
    (confirm_quit s).finished = true := by
  unfold confirm_quit
  split_ifs with hf
  · exact hf
  · rfl

theorem step_of_finished (s : AppState) (e : MEvent) (h : s.finished = true) :
    step s e = s := by
  cases e with
  | submit i => exact check_answer_finished s i h
  | quitConfirmed => simp [step, confirm_quit, h]

theorem foldl_of_finished (evs : List MEvent) (s : AppState)
    (h : s.finished = true) : evs.foldl step s = s := by
  induction evs with
  | nil => rfl
  | cons e rest ih =>
    rw [List.foldl_cons, step_of_finished s e h]
    exact ih

theorem step_inv (s : AppState) (e : MEvent) (h : InvM s) : InvM (step s e) := by
  cases e with
  | submit i => exact check_answer_inv s i h
  | quitConfirmed =>
    show InvM (confirm_quit s)
    exact Or.inl (confirm_quit_finished s)

theorem step_finished_origin (s : AppState) (e : MEvent)
    (h : (step s e).finished = true) :
    s.finished = true ∨ (step s e).lives ≤ 0 ∨
      MAX_QUESTIONS ≤ (step s e).question_index ∨ e = MEvent.quitConfirmed := by
  cases e with
  | quitConfirmed => exact Or.inr (Or.inr (Or.inr rfl))
  | submit i =>
    by_cases hf : s.finished = true
    · exact Or.inl hf
    · have hf2 := finished_false_of_not s hf
      have h2 : (check_answer s i).finished = true := h
      rcases check_answer_finished_origin s i hf2 h2 with h3 | h3
      · exact Or.inr (Or.inl h3)
      · exact Or.inr (Or.inr (Or.inl h3))

theorem foldl_finished_origin (evs : List MEvent) :
    ∀ s : AppState, s.finished = false → (evs.foldl step s).finished = true →
      (evs.foldl step s).lives ≤ 0 ∨
        MAX_QUESTIONS ≤ (evs.foldl step s).question_index ∨
        MEvent.quitConfirmed ∈ evs := by
  induction evs with
  | nil =>
    intro s h0 h1
    rw [List.foldl_nil] at h1
    rw [h0] at h1
    cases h1
  | cons e rest ih =>
    intro s h0 h1
    rw [List.foldl_cons] at h1 ⊢
    by_cases hf : (step s e).finished = true
    · rw [foldl_of_finished rest _ hf] at h1 ⊢
      rcases step_finished_origin s e hf with h | h | h | h
      · rw [h0] at h; cases h
      · exact Or.inl h
      · exact Or.inr (Or.inl h)
      · subst h; exact Or.inr (Or.inr (List.mem_cons_self _ _))
    · rcases ih (step s e) (finished_false_of_not _ hf) h1 with h | h | h
      · exact Or.inl h
      · exact Or.inr (Or.inl h)
      · exact Or.inr (Or.inr (List.mem_cons_of_mem _ h))

theorem foldl_quit_finished (evs : List MEvent) :
    ∀ s : AppState, MEvent.quitConfirmed ∈ evs →
      (evs.foldl step s).finished = true := by
  induction evs with
  | nil => intro s h; cases h
  | cons e rest ih =>
    intro s h
    rw [List.foldl_cons]
    by_cases he : e = MEvent.quitConfirmed
    · subst he
      have hq : (step s MEvent.quitConfirmed).finished = true :=
        confirm_quit_finished s
      rw [foldl_of_finished _ _ hq]
      exact hq
    · have hm : MEvent.quitConfirmed ∈ rest := by
        rcases List.mem_cons.mp h with h1 | h1
        · exact absurd h1.symm he
        · exact h1
      exact ih (step s e) hm

theorem foldl_inv (evs : List MEvent) :
    ∀ s : AppState, InvM s → InvM (evs.foldl step s) := by
  induction evs with
  | nil => intro s h; exact h
  | cons e rest ih =>
    intro s h
    rw [List.foldl_cons]
    exact ih (step s e) (step_inv s e h)

theorem start_quiz_not_finished (data : List MProblem) :
    (start_quiz data).finished = false := by
  unfold start_quiz display_problem MAX_QUESTIONS MAX_LIVES
  norm_num

theorem run_inv (data : List MProblem) (events : List MEvent) :
    InvM (run data events) :=
  foldl_inv events (start_quiz data) (display_problem_inv _)

end MainQuiz

/-- C6 (amended): a main.py quiz run reaches the Finished state (results page)
    if and only if it has run out of lives, or the question index has reached
    the maximum of 10, or the player confirmed quitting - the quit button is a
    third way to finish, with lives remaining and fewer than 10 questions
    attempted. -/
theorem c6_finished_characterization (data : List MainQuiz.MProblem)
    (events : List MainQuiz.MEvent) :
    (MainQuiz.run data events).finished = true ↔
      ((MainQuiz.run data events).lives ≤ 0 ∨
        MainQuiz.MAX_QUESTIONS ≤ (MainQuiz.run data events).question_index ∨
        MainQuiz.MEvent.quitConfirmed ∈ events) := by
  constructor
  · intro h
    exact MainQuiz.foldl_finished_origin events _
      (MainQuiz.start_quiz_not_finished data) h
  · intro h
    have hi := MainQuiz.run_inv data events
    unfold MainQuiz.InvM at hi
    rcases h with h | h | h
    · rcases hi with hf | ⟨hl, _⟩
      · exact hf
      · omega
    · rcases hi with hf | ⟨_, hidx⟩
      · exact hf
      · omega
    · exact MainQuiz.foldl_quit_finished events _ h

/-- C6 counterexample: from a fresh Beginner run with ten generated problems,
    a single confirmed quit reaches the results page with all 5 lives left and
    0 questions attempted, refuting the claimed iff. -/
theorem c6_quit_cex :
    (MainQuiz.run (List.replicate 10 (MainQuiz.mkProblem 1 2 MathQuiz.Op.add))
        [MainQuiz.MEvent.quitConfirmed]).finished = true ∧
    (MainQuiz.run (List.replicate 10 (MainQuiz.mkProblem 1 2 MathQuiz.Op.add))
        [MainQuiz.MEvent.quitConfirmed]).lives = 5 ∧
    (MainQuiz.run (List.replicate 10 (MainQuiz.mkProblem 1 2 MathQuiz.Op.add))
        [MainQuiz.MEvent.quitConfirmed]).question_index = 0 := by
  decide

/-- C6 witness: the characterization applied to a concrete quit-only run. -/
theorem c6_finished_characterization_w :
    (MainQuiz.run [] [MainQuiz.MEvent.quitConfirmed]).finished = true :=
  (c6_finished_characterization [] [MainQuiz.MEvent.quitConfirmed]).mpr
    (Or.inr (Or.inr (by decide)))

/-
  Claims about StudentReport.py (StudentManager).
-/

/-- C1 (amended): the letter grade is a pure deterministic function of the
    four raw score fields; percentages of at least 70 grade A, the closed
    bands 60..69, 50..59 and 40..49 grade B, C and D, and everything else -
    percentages below 40 but also the fractional gaps strictly between 69 and
    70, 59 and 60, and 49 and 50 - grades F. -/
theorem c1_grade_bands (s : StudentReport.Student) :
    (∀ t : StudentReport.Student, t.c1 = s.c1 → t.c2 = s.c2 → t.c3 = s.c3 →
      t.exam = s.exam →
        StudentReport.calculate_grade t = StudentReport.calculate_grade s) ∧
    (70 ≤ StudentReport.overall_percentage s →
      StudentReport.calculate_grade s = "A") ∧
    (60 ≤ StudentReport.overall_percentage s ∧
        StudentReport.overall_percentage s ≤ 69 →
      StudentReport.calculate_grade s = "B") ∧
    (50 ≤ StudentReport.overall_percentage s ∧
        StudentReport.overall_percentage s ≤ 59 →
      StudentReport.calculate_grade s = "C") ∧
    (40 ≤ StudentReport.overall_percentage s ∧
        StudentReport.overall_percentage s ≤ 49 →
      StudentReport.calculate_grade s = "D") ∧
    (StudentReport.overall_percentage s < 40 ∨
        (69 < StudentReport.overall_percentage s ∧
          StudentReport.overall_percentage s < 70) ∨
        (59 < StudentReport.overall_percentage s ∧
          StudentReport.overall_percentage s < 60) ∨
        (49 < StudentReport.overall_percentage s ∧
          StudentReport.overall_percentage s < 50) →
      StudentReport.calculate_grade s = "F") := by
  refine ⟨?_, ?_, ?_, ?_, ?_, ?_⟩
  · intro t h1 h2 h3 h4
    unfold StudentReport.calculate_grade StudentReport.overall_percentage
      StudentReport.total_score StudentReport.coursework_total
    rw [h1, h2, h3, h4]
  · intro h
    unfold StudentReport.calculate_grade
    rw [if_pos h]
  · rintro ⟨h1, h2⟩
    unfold StudentReport.calculate_grade
    rw [if_neg (by intro g; linarith), if_pos ⟨h1, h2⟩]
  · rintro ⟨h1, h2⟩
    unfold StudentReport.calculate_grade
    rw [if_neg (by intro g; linarith),
        if_neg (by rintro ⟨g1, g2⟩; linarith), if_pos ⟨h1, h2⟩]
  · rintro ⟨h1, h2⟩
    unfold StudentReport.calculate_grade
    rw [if_neg (by intro g; linarith),
        if_neg (by rintro ⟨g1, g2⟩; linarith),
        if_neg (by rintro ⟨g1, g2⟩; linarith), if_pos ⟨h1, h2⟩]
  · intro h
    unfold StudentReport.calculate_grade
    have n1 : ¬ (70 ≤ StudentReport.overall_percentage s) := by
      rcases h with h | ⟨h1, h2⟩ | ⟨h1, h2⟩ | ⟨h1, h2⟩ <;> linarith
    have n2 : ¬ (60 ≤ StudentReport.overall_percentage s ∧
        StudentReport.overall_percentage s ≤ 69) := by
      rintro ⟨a, b⟩
      rcases h with h | ⟨h1, h2⟩ | ⟨h1, h2⟩ | ⟨h1, h2⟩ <;> linarith
    have n3 : ¬ (50 ≤ StudentReport.overall_percentage s ∧
        StudentReport.overall_percentage s ≤ 59) := by
      rintro ⟨a, b⟩
      rcases h with h | ⟨h1, h2⟩ | ⟨h1, h2⟩ | ⟨h1, h2⟩ <;> linarith
    have n4 : ¬ (40 ≤ StudentReport.overall_percentage s ∧
        StudentReport.overall_percentage s ≤ 49) := by
      rintro ⟨a, b⟩
      rcases h with h | ⟨h1, h2⟩ | ⟨h1, h2⟩ | ⟨h1, h2⟩ <;> linarith
    rw [if_neg n1, if_neg n2, if_neg n3, if_neg n4]

/-- C1 counterexample: the student with coursework 20/20/20 and exam 51 has
    overall percentage 69.375 - inside the claimed 60-to-70 B band and not
    below 40 - yet the code grades it F, so a percentage value does fall
    outside every band of the elif-chain. -/
theorem c1_grade_gap_cex :
    StudentReport.overall_percentage
        ⟨"1234".toList, "Eve".toList, 20, 20, 20, 51⟩ = 555 / 8 ∧
    (60 : ℚ) ≤ 555 / 8 ∧ (555 : ℚ) / 8 < 70 ∧ ¬ ((555 : ℚ) / 8 < 40) ∧
    StudentReport.calculate_grade
        ⟨"1234".toList, "Eve".toList, 20, 20, 20, 51⟩ = "F" ∧
    StudentReport.calculate_grade
        ⟨"1234".toList, "Eve".toList, 20, 20, 20, 51⟩ ≠ "B" := by
  have hp : StudentReport.overall_percentage
      ⟨"1234".toList, "Eve".toList, 20, 20, 20, 51⟩ = 555 / 8 := by
    unfold StudentReport.overall_percentage StudentReport.total_score
      StudentReport.coursework_total StudentReport.TOTAL_MAX_MARKS
    norm_num
  have hg : StudentReport.calculate_grade
      ⟨"1234".toList, "Eve".toList, 20, 20, 20, 51⟩ = "F" := by
    unfold StudentReport.calculate_grade
    rw [hp]
    rw [if_neg (by norm_num), if_neg (by rintro ⟨g1, g2⟩; norm_num at g2),
        if_neg (by rintro ⟨g1, g2⟩; norm_num at g2),
        if_neg (by rintro ⟨g1, g2⟩; norm_num at g2)]
  refine ⟨hp, by norm_num, by norm_num, by norm_num, hg, ?_⟩
  rw [hg]
  decide

/-- C1 witness: coursework 20/20/20 with exam 52 is exactly 70 percent and
    grades A. -/
theorem c1_grade_bands_w :
    (70 : ℚ) ≤ StudentReport.overall_percentage
        ⟨"1234".toList, "Amy".toList, 20, 20, 20, 52⟩ ∧
    StudentReport.calculate_grade
        ⟨"1234".toList, "Amy".toList, 20, 20, 20, 52⟩ = "A" := by
  have h : (70 : ℚ) ≤ StudentReport.overall_percentage
      ⟨"1234".toList, "Amy".toList, 20, 20, 20, 52⟩ := by
    unfold StudentReport.overall_percentage StudentReport.total_score
      StudentReport.coursework_total StudentReport.TOTAL_MAX_MARKS
    norm_num
  exact ⟨h, (c1_grade_bands _).2.1 h⟩

/-- C8 (amended): find_student strips and lowercases the search term but
    compares it with the stored code verbatim; it returns, in roster order
    (a sublist of the roster), exactly the students whose raw code equals the
    lowered term or whose lowered name contains it as a substring.  A code
    containing uppercase letters can therefore never be matched by the code
    test, even by an exact-case search; for lowercase codes the documented
    behavior holds, and code matching is never substring matching. -/
theorem c8_find_student_spec (sts : List StudentReport.Student)
    (term : PyModel.PyStr) :
    (StudentReport.find_student sts term).Sublist sts ∧
    ∀ s : StudentReport.Student,
      s ∈ StudentReport.find_student sts term ↔
        s ∈ sts ∧ (s.code = PyModel.toLowerC (PyModel.trimC term) ∨
          PyModel.containsSub (PyModel.toLowerC s.name)
            (PyModel.toLowerC (PyModel.trimC term)) = true) := by
  constructor
  · unfold StudentReport.find_student
    exact List.filter_sublist sts
  · exact StudentReport.mem_find_student sts term

/-- C8 counterexample: a student whose code is exactly the search term "A123"
    is not returned, because the term is lowercased to "a123" while the stored
    code is compared verbatim - refuting case-insensitive (and even exact)
    code matching for uppercase codes. -/
theorem c8_uppercase_code_cex :
    StudentReport.find_student
        [⟨"A123".toList, "Bob".toList, 10, 10, 10, 50⟩] ("A123".toList) = [] ∧
    (⟨"A123".toList, "Bob".toList, 10, 10, 10, 50⟩ :
        StudentReport.Student).code = "A123".toList := by
  constructor
  · decide
  · rfl

/-- C8 witness: the spec's concrete check - searching "42" against a roster
    whose only student has code "0042" (and a name not containing "42")
    returns nothing: code matching is exact, not substring. -/
theorem c8_find_student_spec_w :
    ¬ ((⟨"0042".toList, "Bob".toList, 10, 10, 10, 50⟩ : StudentReport.Student) ∈
        StudentReport.find_student
          [⟨"0042".toList, "Bob".toList, 10, 10, 10, 50⟩] ("42".toList)) := by
  intro hmem
  have h := ((c8_find_student_spec
      [⟨"0042".toList, "Bob".toList, 10, 10, 10, 50⟩] ("42".toList)).2 _).mp hmem
  revert h
  decide

/-- C4 (amended): of the mutating roster operations, only add rolls back on a
    failed save - _handle_submission pops the appended student, leaving the
    roster exactly as before - while delete performs no rollback: after a
    failed save the matched student is still gone from the in-memory roster,
    which therefore differs from the roster before (and from what the file
    still holds). -/
theorem c4_failed_save_rollback :
    (∀ (dm : StudentReport.DataM) (s : StudentReport.Student),
      (StudentReport.handle_submission dm s false).students = dm.students) ∧
    (∀ (dm : StudentReport.DataM) (term : PyModel.PyStr)
        (st : StudentReport.Student) (rest : List StudentReport.Student),
      StudentReport.find_student dm.students term = st :: rest →
        (StudentReport.submit_inline_delete dm term false).students =
          StudentReport.removeFirst dm.students st ∧
        (StudentReport.submit_inline_delete dm term false).students ≠
          dm.students) := by
  constructor
  · intro dm s
    simp [StudentReport.handle_submission, StudentReport.save_data,
      List.dropLast_concat]
  · intro dm term st rest hf
    have hmem : st ∈ dm.students := by
      have hmem2 : st ∈ StudentReport.find_student dm.students term := by
        rw [hf]
        exact List.mem_cons_self _ _
      unfold StudentReport.find_student at hmem2
      exact List.mem_of_mem_filter hmem2
    constructor
    · unfold StudentReport.submit_inline_delete
      rw [hf]
      rfl
    · unfold StudentReport.submit_inline_delete
      rw [hf]
      intro he
      have hlen := congrArg List.length he
      simp only [StudentReport.save_data] at hlen
      have hrm := StudentReport.removeFirst_length dm.students st hmem
      omega

/-- C4 counterexample: deleting the only student of a one-student roster with
    a failing save leaves the in-memory roster empty, not equal to the roster
    before the failed mutation. -/
theorem c4_delete_no_rollback_cex :
    (StudentReport.submit_inline_delete
        ⟨[⟨"1234".toList, "Ann".toList, 10, 10, 10, 50⟩], 1⟩
        ("1234".toList) false).students = [] ∧
    (⟨[⟨"1234".toList, "Ann".toList, 10, 10, 10, 50⟩], 1⟩ :
        StudentReport.DataM).students ≠ [] := by
  decide

/-- C4 witness: the add rollback applied to a concrete roster, and the delete
    non-rollback applied to a concrete one-student roster. -/
theorem c4_failed_save_rollback_w :
    (StudentReport.handle_submission ⟨[], 0⟩
        ⟨"1111".toList, "Zed".toList, 10, 10, 10, 50⟩ false).students = [] ∧
    (StudentReport.submit_inline_delete
        ⟨[⟨"1234".toList, "Ann".toList, 10, 10, 10, 50⟩], 1⟩
        ("1234".toList) false).students ≠
      (⟨[⟨"1234".toList, "Ann".toList, 10, 10, 10, 50⟩], 1⟩ :
        StudentReport.DataM).students :=
  ⟨c4_failed_save_rollback.1 ⟨[], 0⟩ ⟨"1111".toList, "Zed".toList, 10, 10, 10, 50⟩,
    (c4_failed_save_rollback.2
      ⟨[⟨"1234".toList, "Ann".toList, 10, 10, 10, 50⟩], 1⟩
      ("1234".toList) ⟨"1234".toList, "Ann".toList, 10, 10, 10, 50⟩ []
      (by decide)).2⟩

/-- C9 (amended): loading a roster file whose record lines are exactly the
    file-format of students with comma-free code and name, the code not
    starting with whitespace and the score fields written canonically (as
    str() of an int produces them: no leading zeros, plus signs or padding),
    and then saving, reproduces the record lines byte-for-byte; only the
    count line is recomputed. -/
theorem c9_save_load_roundtrip (lines : List PyModel.PyStr)
    (h : ∀ l ∈ lines.drop 1, ∃ st : StudentReport.Student,
      StudentReport.valid_record_student st ∧ l = StudentReport.to_file_format st) :
    StudentReport.save_lines (StudentReport.loadStudents lines) =
      PyModel.natToDigits (lines.drop 1).length :: lines.drop 1 := by
  unfold StudentReport.save_lines StudentReport.loadStudents
  have hm := StudentReport.map_format_filterMap (lines.drop 1) h
  have hl : ((lines.drop 1).filterMap StudentReport.parseLine).length =
      (lines.drop 1).length := by
    have := congrArg List.length hm
    rwa [List.length_map] at this
  rw [hl, hm]

/-- C9 counterexample: the record "1234,John,07,10,10,50" has exactly six
    comma-separated fields and int() accepts every score field, yet load
    followed by save rewrites the zero-padded "07" as "7", so the record lines
    are not reproduced byte-for-byte. -/
theorem c9_leading_zero_cex :
    (StudentReport.save_lines (StudentReport.loadStudents
        ["1".toList, "1234,John,07,10,10,50".toList])).drop 1 ≠
      (["1".toList, "1234,John,07,10,10,50".toList] :
        List PyModel.PyStr).drop 1 ∧
    (StudentReport.save_lines (StudentReport.loadStudents
        ["1".toList, "1234,John,07,10,10,50".toList])).drop 1 =
      ["1234,John,7,10,10,50".toList] := by
  decide

/-- C9 witness: the round-trip applied to a concrete one-record file with
    canonical score fields. -/
theorem c9_save_load_roundtrip_w :
    StudentReport.save_lines (StudentReport.loadStudents
        ["1".toList, "1234,John Smith,15,18,20,92".toList]) =
      PyModel.natToDigits 1 :: ["1234,John Smith,15,18,20,92".toList] := by
  have h : ∀ l ∈ (["1".toList, "1234,John Smith,15,18,20,92".toList] :
      List PyModel.PyStr).drop 1, ∃ st : StudentReport.Student,
      StudentReport.valid_record_student st ∧
        l = StudentReport.to_file_format st := by
    intro l hl
    simp only [List.drop_one, List.tail_cons, List.mem_singleton] at hl
    subst hl
    exact ⟨⟨"1234".toList, "John Smith".toList, 15, 18, 20, 92⟩,
      ⟨by decide, by decide, by decide⟩, by decide⟩
  exact c9_save_load_roundtrip _ h

/-- C10 (amended): class_size equals the in-memory roster length after a
    (fully successful) load, after an add whose save succeeds, and after any
    delete that found its target, whether or not the delete's save succeeds;
    but an add whose save fails leaves class_size at the pre-rollback length -
    one more than the roster that remains - because save_data updates
    class_size before attempting the write and the pop does not undo it. -/
theorem c10_class_size_sync :
    (∀ lines : List PyModel.PyStr,
      (StudentReport.load_dm lines).class_size =
        ((StudentReport.load_dm lines).students.length : Int)) ∧
    (∀ (dm : StudentReport.DataM) (s : StudentReport.Student),
      (StudentReport.handle_submission dm s true).class_size =
        ((StudentReport.handle_submission dm s true).students.length : Int)) ∧
    (∀ (dm : StudentReport.DataM) (term : PyModel.PyStr) (w : Bool)
        (st : StudentReport.Student) (rest : List StudentReport.Student),
      StudentReport.find_student dm.students term = st :: rest →
        (StudentReport.submit_inline_delete dm term w).class_size =
          ((StudentReport.submit_inline_delete dm term w).students.length : Int)) ∧
    (∀ (dm : StudentReport.DataM) (s : StudentReport.Student),
      (StudentReport.handle_submission dm s false).class_size =
        (dm.students.length : Int) + 1 ∧
      (StudentReport.handle_submission dm s false).students.length =
        dm.students.length) := by
  refine ⟨fun lines => rfl, ?_, ?_, ?_⟩
  · intro dm s
    simp [StudentReport.handle_submission, StudentReport.save_data]
  · intro dm term w st rest hf
    unfold StudentReport.submit_inline_delete
    rw [hf]
    rfl
  · intro dm s
    constructor
    · simp [StudentReport.handle_submission, StudentReport.save_data]
    · simp [StudentReport.handle_submission, StudentReport.save_data,
        List.dropLast_concat]

/-- C10 counterexample: an add on an empty roster whose save fails rolls the
    roster back to empty but leaves class_size at 1, so the stored class_size
    no longer equals the roster length (and get_summary would divide by the
    wrong count). -/
theorem c10_stale_class_size_cex :
    (StudentReport.handle_submission ⟨[], 0⟩
        ⟨"1111".toList, "Zed".toList, 10, 10, 10, 50⟩ false).class_size = 1 ∧
    (StudentReport.handle_submission ⟨[], 0⟩
        ⟨"1111".toList, "Zed".toList, 10, 10, 10, 50⟩ false).students.length = 0 := by
  decide

/-- C10 witness: the delete branch of the invariant applied to a concrete
    roster with a failing save. -/
theorem c10_class_size_sync_w :
    (StudentReport.submit_inline_delete
        ⟨[⟨"1234".toList, "Ann".toList, 10, 10, 10, 50⟩], 1⟩
        ("1234".toList) false).class_size =
      ((StudentReport.submit_inline_delete
        ⟨[⟨"1234".toList, "Ann".toList, 10, 10, 10, 50⟩], 1⟩
        ("1234".toList) false).students.length : Int) :=
  c10_class_size_sync.2.2.1
    ⟨[⟨"1234".toList, "Ann".toList, 10, 10, 10, 50⟩], 1⟩
    ("1234".toList) false ⟨"1234".toList, "Ann".toList, 10, 10, 10, 50⟩ []
    (by decide)
